import Mathlib

/-!
Verification of the LassbergEL entity-resolution core against its design
specification.

The development shallowly embeds the Python modules `src/authority.py` and
`src/external_lookup.py`.  Pure functions become Lean functions.  Every
network call (Wikidata search, GND reconciliation, the SPARQL class lookup,
the chat-based reasoning service) is modelled as an oracle parameter: a total
function from the request data to `Option` of the parsed response, where
`none` stands for a transport or parse failure (the Python code catches the
raised exception at that point).  Similarity scores and confidences are
rationals (`ℚ`); Python floats on a 0-100 or 0-1 scale are exact enough for
every property treated here.  Python `str.lower` / `str.upper` / `str.strip`
are re-implemented on the character list of the string because the
corresponding Lean `String` primitives do not reduce in the kernel; Python
`uuid.uuid4` is an oracle `Nat → String` indexed by the position of the
mention in the processing order; the Python builtin `float : str → float` is
an oracle `String → Option ℚ` (with `parseDecimalQ` below as one concrete,
honest instance covering plain decimal literals).  Fallible code returns
`Except PyError`.
-/

/-- Model of Python `str.lower` (ASCII case folding, which covers every
label and identifier this pipeline compares). -/
def pyLower (s : String) : String := ⟨s.data.map Char.toLower⟩

/-- Model of Python `str.upper`. -/
def pyUpper (s : String) : String := ⟨s.data.map Char.toUpper⟩

/-- Model of Python `str.strip` with no argument: drop leading and trailing
whitespace. -/
def pyStrip (s : String) : String :=
  ⟨((s.data.dropWhile Char.isWhitespace).reverse.dropWhile Char.isWhitespace).reverse⟩

/-- Value of a non-empty all-digit character list, `none` otherwise. -/
def natOfDigits? (l : List Char) : Option Nat :=
  if l ≠ [] ∧ l.all Char.isDigit then
    some (l.foldl (fun n c => n * 10 + (c.toNat - 48)) 0)
  else none

/-- One honest instance of the oracle modelling the Python builtin
`float(string)`: it accepts plain decimal literals (optional minus sign,
digits, optionally a dot and more digits) and returns `none` — the model of
`ValueError` — on anything else.  Python accepts a few more spellings
(exponents, `inf`, a leading `+`); no input used in this development has
those forms. -/
def parseDecimalQ (s : String) : Option ℚ :=
  let l := (pyStrip s).data
  let sgn : ℚ := if l.head? = some '-' then -1 else 1
  let l₁ := if l.head? = some '-' then l.tail else l
  let ip := l₁.takeWhile (fun c => c ≠ '.')
  match l₁.dropWhile (fun c => c ≠ '.') with
  | [] => (natOfDigits? ip).map fun n => sgn * n
  | _ :: fp =>
    match natOfDigits? ip, natOfDigits? fp with
    | some n, some m => some (sgn * ((n : ℚ) + (m : ℚ) / (10 : ℚ) ^ fp.length))
    | _, _ => none

/-! ## `src/authority.py` -/

/-- `normalize_type` of `src/authority.py` (lines 24-34).  Python's
`if not ent_type` is truthiness: only the empty string (or `None`, outside
the string-typed contract) takes the `UNKNOWN` branch. -/
def normalize_type (ent_type : String) : String :=
  if ent_type = "" then "UNKNOWN"
  else
    let t := pyUpper (pyStrip ent_type)
    if t = "PER" ∨ t = "PERSON" then "PER"
    else if t = "LOC" ∨ t = "LOCATION" ∨ t = "PLACE" then "LOC"
    else if t = "WORK" ∨ t = "TITLE" then "WORK"
    else t

/-- `WIKIDATA_ALLOWED_INSTANCE_OF` of `src/authority.py` (lines 46-53) as a
lookup function; `none` models a key that is absent from the dict. -/
def WIKIDATA_ALLOWED_INSTANCE_OF (t : String) : Option (List String) :=
  if t = "PER" then some ["Q5"]
  else if t = "LOC" then
    some ["Q486972", "Q515", "Q6256", "Q56061", "Q82794", "Q2221906", "Q23442", "Q8502", "Q4022"]
  else if t = "WORK" then
    some ["Q17537576", "Q47461344", "Q571", "Q7725634", "Q13442814"]
  else none

/-- A candidate dict as produced by `query_wikidata_raw`: the fields the
filter reads (`id`), a representative payload field, and the `instance_of`
key that `filter_wikidata_by_type` adds to the copies it keeps (`none`
models the key being absent).  An id-less dict is modelled by `id = ""`
(both are falsy in the `if c.get("id")` guard). -/
structure WDCandidate where
  id : String
  label : String
  description : String := ""
  instance_of : Option (List String) := none
deriving DecidableEq, Repr

/-- The classes the batched SPARQL lookup yields for one candidate:
`inst_map.get(qid, [])` with the map built over the truthy ids, so a falsy
id reads the default `[]`. -/
def wdInstances (instMap : String → List String) (c : WDCandidate) : List String :=
  if c.id ≠ "" then instMap c.id else []

/-- `filter_wikidata_by_type` of `src/authority.py` (lines 130-150).
`instMap` is the oracle for `fetch_wikidata_instance_of` (one successful
batched class lookup).  `if not allowed or not candidates` is truthiness on
a set and a list. -/
def filter_wikidata_by_type (instMap : String → List String)
    (candidates : List WDCandidate) (ent_type : String) : List WDCandidate :=
  match WIKIDATA_ALLOWED_INSTANCE_OF (normalize_type ent_type) with
  | none => candidates
  | some allowed =>
    if allowed.isEmpty || candidates.isEmpty then candidates
    else
      let filtered := candidates.filterMap fun c =>
        let insts := wdInstances instMap c
        if insts.any (fun i => allowed.contains i) then
          some { c with instance_of := some insts }
        else none
      if filtered.isEmpty then candidates else filtered

/-! ## `src/external_lookup.py` — source adapters -/

/-- The uniform candidate dict that the three source adapters of
`src/external_lookup.py` produce.  `score`, `ref` and `gnd_id` are `Option`
because the adapters differ in which keys they set (Wikidata candidates
carry neither a score nor a ref; a missing key is `none`). -/
structure Candidate where
  label : String
  id : String
  source : String
  score : Option ℚ := none
  ref : Option String := none
  gnd_id : Option String := none
deriving DecidableEq, Repr

/-- One record of a loaded local work-catalogue file, after
`_load_work_jsonl` standardised it (lines 22-39): `label` from `title`,
the alternate-titles string (`""` when the JSONL line has none), the id
(original or freshly generated), the loader's source tag, and the
reference URL (`None` when absent). -/
structure WorkEntry where
  label : String
  alt_titles : String := ""
  id : String
  source : String
  ref : Option String := none
deriving DecidableEq, Repr

/-- Score of one catalogue entry against the query in
`_search_local_work_cache` (lines 56-61): whole-string similarity
(`fuzz.ratio`) of the lowercased query against the lowercased label,
improved to the token-set similarity (`fuzz.token_set_ratio`) against the
lowercased alternate-titles string when that string is non-empty (truthy).
`ratio` and `token_set_ratio` are oracle parameters for the two `rapidfuzz`
metrics (0-100 scale). -/
def localScore (ratio token_set_ratio : String → String → ℚ)
    (query_text : String) (entry : WorkEntry) : ℚ :=
  let score := ratio (pyLower query_text) (pyLower entry.label)
  if entry.alt_titles ≠ "" then
    max score (token_set_ratio (pyLower query_text) (pyLower entry.alt_titles))
  else score

/-- The candidate dict built for a catalogue entry that reaches the
threshold (lines 66-72). -/
def mkLocalCandidate (entry : WorkEntry) (score : ℚ) : Candidate :=
  { label := entry.label, id := entry.id, source := entry.source,
    score := some score, ref := entry.ref }

/-- Descending-score order used by the final `sort(..., reverse=True)`;
a missing score key would read as 0 (it is always present here). -/
def scoreGe (a b : Candidate) : Prop := b.score.getD 0 ≤ a.score.getD 0

instance : DecidableRel scoreGe :=
  fun a b => inferInstanceAs (Decidable (b.score.getD 0 ≤ a.score.getD 0))

instance : IsTotal Candidate scoreGe := ⟨fun _ _ => le_total _ _⟩

instance : IsTrans Candidate scoreGe := ⟨fun _ _ _ h1 h2 => le_trans h2 h1⟩

/-- `_search_local_work_cache` of `src/external_lookup.py` (lines 41-76)
after the process-wide cache has been loaded: `cache` is the content of
`LOCAL_WORK_CACHE` (an insertion-ordered source → entries map), and the
file loading on first call is outside this model.  Entries scoring at or
above 75 are collected in iteration order, stably sorted by descending
score, and cut to the best five.  `List.insertionSort` with `scoreGe` is
a stable descending sort, as Python's `list.sort(reverse=True)` is. -/
def search_local_work_cache (ratio token_set_ratio : String → String → ℚ)
    (cache : List (String × List WorkEntry)) (query_text : String) : List Candidate :=
  let best_candidates :=
    cache.foldl (fun acc se =>
      se.2.foldl (fun acc entry =>
        let score := localScore ratio token_set_ratio query_text entry
        if 75 ≤ score then acc ++ [mkLocalCandidate entry score] else acc) acc) []
  (best_candidates.insertionSort scoreGe).take 5

/-- A Wikidata `wbsearchentities` request as issued by
`_search_wikidata_api` (lines 102-109): only the query text and the limit
vary (language, format and item type are constant, and the local
`TYPE_MAP` of that function is dead code — it is never put into the
request parameters). -/
structure WdQuery where
  search : String
  limit : Nat
deriving DecidableEq, Repr

/-- One item of the `search` array of a Wikidata response; the two fields
the adapter reads. -/
structure WdEntity where
  id : String
  label : String
deriving DecidableEq, Repr

/-- `_search_wikidata_api` of `src/external_lookup.py` (lines 97-149).
`wd` is the transport oracle; `none` models the request raising after the
retries, which the function catches, turning it into `[]`.  The
`entity_type` argument is accepted and ignored exactly as in the source. -/
def search_wikidata_api (wd : WdQuery → Option (List WdEntity))
    (query_text entity_type : String) (limit : Nat := 5) : List Candidate :=
  match wd ⟨query_text, limit⟩ with
  | none => []
  | some entities =>
    entities.map fun e => { label := e.label, id := e.id, source := "Wikidata" }

/-- The `type_map` dict of `_search_gnd` (lines 154-159), keyed by the
lowercased entity type. -/
def gnd_type_map (t : String) : Option String :=
  if t = "person" then some "DifferentiatedPerson"
  else if t = "corporatebody" then some "CorporateBody"
  else if t = "work" then some "Work"
  else if t = "place" then some "PlaceOrGeographicName"
  else none

/-- The single reconciliation query `q1` that `_search_gnd` sends
(lines 164-170): the text, the GND-native type and the limit. -/
structure GndQuery where
  query : String
  gtype : String
  limit : Nat
deriving DecidableEq, Repr

/-- One item of the `result` array of a reconciliation response: the
`match` flag (a Python keyword-free field name is used here), the name,
the id, and the optional score read with default 0.0. -/
structure GndResultItem where
  matched : Bool
  name : String
  id : String
  score : Option ℚ := none
deriving DecidableEq, Repr

/-- The candidate dict `_search_gnd` builds for a matched result item
(lines 186-191). -/
def gndCandidate (r : GndResultItem) : Candidate :=
  { label := r.name, id := r.id, source := "GND", score := some (r.score.getD 0) }

/-- `_search_gnd` of `src/external_lookup.py` (lines 153-197).  With no
mapping for the lowercased entity type it returns `[]` before building any
request.  Otherwise it sends exactly one query; `none` from the oracle
models the transport or JSON failure the function catches (returning `[]`),
and a returned item becomes a candidate only when its `match` flag is
truthy. -/
def search_gnd (gnd : GndQuery → Option (List GndResultItem))
    (query_text entity_type : String) (limit : Nat := 5) : List Candidate :=
  match gnd_type_map (pyLower entity_type) with
  | none => []
  | some gnd_type =>
    match gnd ⟨query_text, gnd_type, limit⟩ with
    | none => []
    | some items => (items.filter (fun r => r.matched)).map gndCandidate

/-- `_lookup_person_external` (lines 199-206): Wikidata then GND as
Person, concatenated. -/
def lookup_person_external (wd : WdQuery → Option (List WdEntity))
    (gnd : GndQuery → Option (List GndResultItem)) (text : String) : List Candidate :=
  search_wikidata_api wd text "PER" 3 ++ search_gnd gnd text "Person" 3

/-- `_lookup_place_external` (lines 208-215): Wikidata then GND as Place,
concatenated. -/
def lookup_place_external (wd : WdQuery → Option (List WdEntity))
    (gnd : GndQuery → Option (List GndResultItem)) (text : String) : List Candidate :=
  search_wikidata_api wd text "LOC" 3 ++ search_gnd gnd text "Place" 3

/-- `_lookup_work_external` (lines 217-237) as defined: local catalogue
first, returned as-is when non-empty, otherwise GND as Work (limit 3) and
as CorporateBody (limit 2), concatenated.  Note that the only call site,
line 331, does not supply the `local_work_files` argument and therefore
raises `TypeError` before this body runs; the pipeline model below
reflects that call site. -/
def lookup_work_external (ratio token_set_ratio : String → String → ℚ)
    (gnd : GndQuery → Option (List GndResultItem))
    (text : String) (cache : List (String × List WorkEntry)) : List Candidate :=
  let local_results := search_local_work_cache ratio token_set_ratio cache text
  if local_results.isEmpty then
    search_gnd gnd text "Work" 3 ++ search_gnd gnd text "CorporateBody" 2
  else local_results

/-! ## `src/external_lookup.py` — reasoning adjudicator -/

/-- A JSON value as `chat_json` hands it back (the payload of the `pick`
and `confidence` fields).  JSON objects and arrays are not distinguished
further because neither coercion below accepts them anyway. -/
inductive PyVal where
  | vstr (s : String)
  | vint (n : Int)
  | vfloat (q : ℚ)
  | vbool (b : Bool)
  | vnull
deriving DecidableEq, Repr

/-- Model of Python `str(value)` on such a value.  `strOfFloat` is the
oracle for Python's float-to-string rendering. -/
def pyStrOf (strOfFloat : ℚ → String) : PyVal → String
  | .vstr s => s
  | .vint n => toString n
  | .vfloat q => strOfFloat q
  | .vbool b => if b then "True" else "False"
  | .vnull => "None"

/-- Model of Python `float(value)`: `none` models the `TypeError` or
`ValueError` the builtin raises.  `floatOfString` is the oracle for the
string case (see `parseDecimalQ`). -/
def pyFloatOf (floatOfString : String → Option ℚ) : PyVal → Option ℚ
  | .vstr s => floatOfString s
  | .vint n => some n
  | .vfloat q => some q
  | .vbool b => some (if b then 1 else 0)
  | .vnull => none

/-- The parsed JSON object a reasoning-service call returns to
`_ask_llm_external_pick`; a `none` field models an absent key. -/
structure LlmReply where
  pick : Option PyVal := none
  confidence : Option PyVal := none
deriving DecidableEq, Repr

/-- The dict `_ask_llm_external_pick` returns on a successful pick
(lines 281-286). -/
structure ExternalLink where
  external_id : String
  external_source : String
  confidence : ℚ
  gnd_id : Option String := none
deriving DecidableEq, Repr

/-- `str(data.get("pick", "none")).strip()` — the pick string the
adjudicator compares against candidate ids (line 274). -/
def llm_pick_string (strOfFloat : ℚ → String) (data : LlmReply) : String :=
  pyStrip (pyStrOf strOfFloat (data.pick.getD (.vstr "none")))

/-- `_ask_llm_external_pick` of `src/external_lookup.py` (lines 266-291).
`reply` is the oracle result of `chat_json` on the prompt built for this
entity and candidate list; `none` models a transport or JSON-parse failure.
Order matters and follows the source: the confidence is coerced (line 275)
before the pick is examined, so a present-but-uncoercible confidence raises
inside the `try`, is caught, and yields `None` (abstain) no matter how good
the pick is.  A pick that is empty, case-insensitively `none`, or not
exactly equal to the id of a supplied candidate also yields `None`. -/
def ask_llm_external_pick (floatOfString : String → Option ℚ) (strOfFloat : ℚ → String)
    (reply : Option LlmReply) (candidates : List Candidate) : Option ExternalLink :=
  match reply with
  | none => none
  | some data =>
    let pick_id := llm_pick_string strOfFloat data
    match pyFloatOf floatOfString (data.confidence.getD (.vfloat 0)) with
    | none => none
    | some conf =>
      if pick_id ≠ "" ∧ pyLower pick_id ≠ "none" then
        match candidates.find? (fun c => c.id == pick_id) with
        | some c =>
          some { external_id := pick_id, external_source := c.source,
                 confidence := conf, gnd_id := c.gnd_id }
        | none => none
      else none

/-! ## `src/external_lookup.py` — resolution recorder -/

/-- The `register` sub-object written into a mention's `links` dict
(line 358). -/
structure RegisterLink where
  kind : String
  xml_id : String
  ref : String
deriving DecidableEq, Repr

/-- The `decision` sub-object written into a mention's `links` dict
(line 359). -/
structure DecisionRec where
  method : String
  score : ℚ
  external_source : String
deriving DecidableEq, Repr

/-- A mention's `links` dict: the `register` and `decision` keys the
recorder reads and writes (`none` models an absent key or a `None` value,
which the `is not None` guard treats alike for `register`), plus `extra`
for any other pre-existing keys of the dict — the recorder's assignment
`entity["links"] = {...}` discards those. -/
structure Links where
  register : Option RegisterLink := none
  decision : Option DecisionRec := none
  extra : List (String × String) := []
deriving DecidableEq, Repr

/-- A mention under resolution: the fields `lookup_unlinked_entities`
reads (`text`, `normalized_text`, `target_label`, `label`, `links`), plus
`extra` for the fields it never touches (spans, evidence, flags).  An
absent optional key is `none`; an absent `text` key reads as `""`. -/
structure Entity where
  text : String := ""
  normalized_text : Option String := none
  target_label : Option String := none
  label : Option String := none
  links : Option Links := none
  extra : List (String × String) := []
deriving DecidableEq, Repr

/-- One entry of the `internal_register` log (lines 347-353): the fresh
internal id, the mention's text fields and label, and the spread of the
adjudicator's `external_link` dict. -/
structure RegisterEntry where
  xml_id : String
  text : String
  normalized_text : String
  target_label : String
  external_id : String
  external_source : String
  confidence : ℚ
  gnd_id : Option String := none
deriving DecidableEq, Repr

/-- The letter document: the two mention lists the recorder walks and the
`internal_register` list (created as `[]` when the key is absent, which
this model folds into the field's value). -/
structure Doc where
  letter_id : Option String := none
  entities : List Entity := []
  added_by_llm : List Entity := []
  internal_register : List RegisterEntry := []
deriving DecidableEq, Repr

/-- The exception classes that can cross the per-mention loop in this
model: only `TypeError`, from the mis-called work lookup (line 331). -/
inductive PyError where
  | typeError
deriving DecidableEq, Repr

/-- All external effects of one `lookup_unlinked_entities` run, as
oracles: the two search transports, the reasoning service (keyed by the
entity and candidate list the prompt is built from — the prompt text
itself is a pure function of those and never fails), the Python `float`
and `str` builtins on floats, and the `uuid.uuid4()[:8]` suffixes in
order of use. -/
structure Oracles where
  wd : WdQuery → Option (List WdEntity)
  gnd : GndQuery → Option (List GndResultItem)
  llm : Entity → List Candidate → Option LlmReply
  floatOfString : String → Option ℚ
  strOfFloat : ℚ → String
  uuidSuffix : Nat → String

/-- Python `a or b` for an optional string `a`: the empty string is falsy
and falls through. -/
def orFalsy (a : Option String) (b : String) : String :=
  match a with
  | some s => if s = "" then b else s
  | none => b

/-- `entity.get("target_label") or entity.get("label") or ""` (line 315). -/
def raw_label_of (e : Entity) : String :=
  orFalsy e.target_label (orFalsy e.label "")

/-- `entity.get("normalized_text", entity.get("text", ""))` (line 314). -/
def text_to_lookup_of (e : Entity) : String :=
  e.normalized_text.getD e.text

/-- The labels skipped outright (line 318). -/
def skipLabels : List String := ["TIME", "MISC", "OTHER"]

/-- The WORK-like labels routed to the work lookup (line 330). -/
def workLikeLabels : List String := ["LIT_WORK", "LIT_OBJECT", "BIBL", "MANUSCRIPT"]

/-- The routing block of the per-mention loop (lines 324-331).  The
WORK-like branch is the faithful model of line 331,
`candidates = _lookup_work_external(text_to_lookup)`: the function
requires the second positional argument `local_work_files`, so the call
raises `TypeError` before any source is queried. -/
def gather_candidates (O : Oracles) (text_to_lookup raw_label : String) :
    Except PyError (List Candidate) :=
  if raw_label = "PER" ∨ raw_label = "ORG" then
    .ok (lookup_person_external O.wd O.gnd text_to_lookup)
  else if raw_label = "LOC" then
    .ok (lookup_place_external O.wd O.gnd text_to_lookup)
  else if raw_label ∈ workLikeLabels then
    .error .typeError
  else
    .ok []

/-- One iteration of the per-mention loop of `lookup_unlinked_entities`
(lines 308-361): the idempotence guard, the skip labels, candidate
gathering, adjudication, and on success the fresh register entry plus the
full replacement of the mention's `links`.  `k` is the mention's position
in the combined list (it indexes the uuid oracle).  The result is the
(possibly updated) mention and the register entry to append, or the
escaping exception. -/
def process_entity (O : Oracles) (k : Nat) (e : Entity) :
    Except PyError (Entity × Option RegisterEntry) :=
  if (e.links.bind Links.register).isSome then .ok (e, none)
  else
    let text_to_lookup := text_to_lookup_of e
    let raw_label := raw_label_of e
    if raw_label ∈ skipLabels then .ok (e, none)
    else
      match gather_candidates O text_to_lookup raw_label with
      | .error err => .error err
      | .ok candidates =>
        if candidates.isEmpty then .ok (e, none)
        else
          match ask_llm_external_pick O.floatOfString O.strOfFloat
              (O.llm e candidates) candidates with
          | none => .ok (e, none)
          | some external_link =>
            let unique_id := "NEW_" ++ raw_label ++ "_" ++ O.uuidSuffix k
            .ok ({ e with links := some {
                     register := some { kind := "external_new", xml_id := unique_id,
                                        ref := external_link.external_id },
                     decision := some { method := "llm_external_adjudication",
                                        score := external_link.confidence,
                                        external_source := external_link.external_source },
                     extra := [] } },
                 some { xml_id := unique_id, text := e.text,
                        normalized_text := text_to_lookup, target_label := raw_label,
                        external_id := external_link.external_id,
                        external_source := external_link.external_source,
                        confidence := external_link.confidence,
                        gnd_id := external_link.gnd_id })

/-- The loop over the combined mention list, threading the uuid index and
collecting updated mentions and new register entries in order.  An
exception from any iteration aborts the whole run, as an uncaught Python
exception does. -/
def processAll (O : Oracles) : Nat → List Entity → Except PyError (List Entity × List RegisterEntry)
  | _, [] => .ok ([], [])
  | k, e :: es =>
    match process_entity O k e with
    | .error err => .error err
    | .ok (e2, entry?) =>
      match processAll O (k + 1) es with
      | .error err => .error err
      | .ok (es2, entries) => .ok (e2 :: es2, entry?.toList ++ entries)

/-- `lookup_unlinked_entities` of `src/external_lookup.py` (lines
294-364).  The combined list is `entities + added_by_llm`; because the
Python loop mutates the mention dicts in place, the two lists of the
returned document are the processed prefix and suffix of the combined
list. -/
def lookup_unlinked_entities (O : Oracles) (doc : Doc) : Except PyError Doc :=
  let all_entities := doc.entities ++ doc.added_by_llm
  match processAll O 0 all_entities with
  | .error err => .error err
  | .ok (all2, new_entries) =>
    .ok { doc with
          entities := all2.take doc.entities.length,
          added_by_llm := all2.drop doc.entities.length,
          internal_register := doc.internal_register ++ new_entries }

/-- Decidable equality for `Except` results (the core library does not
derive one), so that concrete runs can be checked by `decide`. -/
instance exceptDecEq {ε α : Type} [DecidableEq ε] [DecidableEq α] :
    DecidableEq (Except ε α) := fun x y =>
  match x, y with
  | .error a, .error b =>
    if h : a = b then isTrue (congrArg Except.error h)
    else isFalse (fun hh => h (by injection hh))
  | .error _, .ok _ => isFalse (fun hh => by injection hh)
  | .ok _, .error _ => isFalse (fun hh => by injection hh)
  | .ok a, .ok b =>
    if h : a = b then isTrue (congrArg Except.ok h)
    else isFalse (fun hh => h (by injection hh))

/-! ## Concrete fixtures used by witnesses and counterexamples -/

/-- A run in which every remote source and the reasoning service fail (or
are never consulted). -/
def oraclesEmpty : Oracles :=
  { wd := fun _ => none, gnd := fun _ => none, llm := fun _ _ => none,
    floatOfString := fun _ => none, strOfFloat := fun _ => "", uuidSuffix := fun _ => "" }

/-- A letter with one unlinked literary-work mention. -/
def docWithWork : Doc :=
  { entities := [{ text := "Der Traum", target_label := some "LIT_WORK" }] }

/-- A letter with an unlinked bibliographic mention followed by a person
mention that the loop would still have to visit. -/
def docWithBibl : Doc :=
  { entities := [{ text := "Zeitschrift", target_label := some "BIBL" },
                 { text := "Hauffe", target_label := some "PER" }] }

/-- A letter whose only mention already carries a register link. -/
def docLinked : Doc :=
  { entities := [{ text := "Hauffe", target_label := some "PER",
                   links := some { register := some { kind := "person", xml_id := "p1",
                                                      ref := "Q1" } } }],
    internal_register := [] }

/-- Wikidata transport oracle that knows one entity. -/
def wdHauffe : WdQuery → Option (List WdEntity) := fun q =>
  if q.search = "Hauffe" then some [{ id := "Q1", label := "Hauffe" }] else none

/-- Reasoning-service oracle that picks `Q1` with confidence 1.0. -/
def llmPickQ1 : Entity → List Candidate → Option LlmReply := fun _ _ =>
  some { pick := some (.vstr "Q1"), confidence := some (.vfloat 1) }

/-- Reasoning-service oracle that returns an id absent from any candidate
list it is shown. -/
def llmPickQ9 : Entity → List Candidate → Option LlmReply := fun _ _ =>
  some { pick := some (.vstr "Q9") }

/-- A full oracle bundle for a successful resolution. -/
def oraclesPick : Oracles :=
  { wd := wdHauffe, gnd := fun _ => none, llm := llmPickQ1,
    floatOfString := parseDecimalQ, strOfFloat := fun _ => "",
    uuidSuffix := fun _ => "u0" }

/-- The same bundle with the out-of-list reasoning service. -/
def oraclesBadPick : Oracles :=
  { wd := wdHauffe, gnd := fun _ => none, llm := llmPickQ9,
    floatOfString := parseDecimalQ, strOfFloat := fun _ => "",
    uuidSuffix := fun _ => "u0" }

/-- An unlinked person mention whose `links` dict exists and carries a
stale extra field (to observe the recorder discarding it). -/
def entityHauffe : Entity :=
  { text := "Hauffe", normalized_text := some "Hauffe", target_label := some "PER",
    links := some { extra := [("wikidata", "stale")] },
    extra := [("char_span", "7-13")] }

/-- The candidate list the oracles above produce for `entityHauffe`. -/
def candsHauffe : List Candidate :=
  [{ label := "Hauffe", id := "Q1", source := "Wikidata" }]

/-- GND reconciliation oracle with one matched and one unmatched item for
person queries. -/
def gndRespHauff : GndQuery → Option (List GndResultItem) := fun q =>
  if q.gtype = "DifferentiatedPerson" then
    some [{ matched := true, name := "Wilhelm Hauff", id := "118540212", score := some 92 },
          { matched := false, name := "Other", id := "1" }]
  else none

/-- Class-lookup oracle that classes `Q1` as human and knows nothing else. -/
def instMapQ5 : String → List String := fun q => if q = "Q1" then ["Q5"] else []

/-- Two Wikidata candidates, of which only the first is a human. -/
def wdCandsAB : List WDCandidate :=
  [{ id := "Q1", label := "A" }, { id := "Q2", label := "B" }]


/-! ## Helper lemmas -/

/-- A `filterMap` whose function is an if-then-some is a filter followed
by a map. -/
theorem filterMap_ite {α β : Type} (p : α → Bool) (f : α → β) (l : List α) :
    l.filterMap (fun a => if p a then some (f a) else none) = (l.filter p).map f := by
  induction l with
  | nil => rfl
  | cons a l ih =>
    by_cases h : p a <;> simp [List.filterMap_cons, List.filter_cons, h, ih]

/-- Every allow-list stored in `WIKIDATA_ALLOWED_INSTANCE_OF` is
non-empty, so the dict's truthiness test only detects a missing key. -/
theorem wikidata_allowlist_nonempty {t : String} {l : List String}
    (h : WIKIDATA_ALLOWED_INSTANCE_OF t = some l) : l ≠ [] := by
  unfold WIKIDATA_ALLOWED_INSTANCE_OF at h
  split at h
  · cases h; simp
  · split at h
    · cases h; simp
    · split at h
      · cases h; simp
      · cases h

/-- A left fold that conditionally appends one element is a filter
followed by a map, prefixed by the accumulator. -/
theorem foldl_append_ite {α β : Type} (p : α → Prop) [DecidablePred p] (f : α → β) :
    ∀ (l : List α) (acc : List β),
      l.foldl (fun acc e => if p e then acc ++ [f e] else acc) acc
        = acc ++ (l.filter (fun e => decide (p e))).map f := by
  intro l
  induction l with
  | nil => intro acc; simp
  | cons a l ih =>
    intro acc
    by_cases h : p a <;> simp [List.filter_cons, h, ih]

/-! ## C8 — `normalize_type` -/

/-- C8 (counterexample): on the empty string the claim fails — the
function returns `"UNKNOWN"`, not the trimmed-and-uppercased input (which
would be `""`). -/
theorem c8_empty_string_counterexample :
    normalize_type "" ≠ pyUpper (pyStrip "") := by decide

/-- C8 (amended): `normalize_type` is a total function; the empty string
maps to `"UNKNOWN"`, and every non-empty string is trimmed and uppercased,
then the synonyms PER/PERSON collapse to PER, LOC/LOCATION/PLACE to LOC,
WORK/TITLE to WORK, and every other value passes through unchanged. -/
theorem c8_normalize_type_total (s : String) :
    normalize_type "" = "UNKNOWN" ∧
    (s ≠ "" →
      ((pyUpper (pyStrip s) = "PER" ∨ pyUpper (pyStrip s) = "PERSON") →
        normalize_type s = "PER") ∧
      ((pyUpper (pyStrip s) = "LOC" ∨ pyUpper (pyStrip s) = "LOCATION" ∨
          pyUpper (pyStrip s) = "PLACE") →
        normalize_type s = "LOC") ∧
      ((pyUpper (pyStrip s) = "WORK" ∨ pyUpper (pyStrip s) = "TITLE") →
        normalize_type s = "WORK") ∧
      (pyUpper (pyStrip s) ∉
          ["PER", "PERSON", "LOC", "LOCATION", "PLACE", "WORK", "TITLE"] →
        normalize_type s = pyUpper (pyStrip s))) := by
  refine ⟨by decide, fun hs => ⟨?_, ?_, ?_, ?_⟩⟩
  · intro h
    unfold normalize_type
    rw [if_neg hs, if_pos h]
  · intro h
    have h1 : ¬(pyUpper (pyStrip s) = "PER" ∨ pyUpper (pyStrip s) = "PERSON") := by
      rcases h with h | h | h <;> rw [h] <;> decide
    unfold normalize_type
    rw [if_neg hs, if_neg h1, if_pos h]
  · intro h
    have h1 : ¬(pyUpper (pyStrip s) = "PER" ∨ pyUpper (pyStrip s) = "PERSON") := by
      rcases h with h | h <;> rw [h] <;> decide
    have h2 : ¬(pyUpper (pyStrip s) = "LOC" ∨ pyUpper (pyStrip s) = "LOCATION" ∨
        pyUpper (pyStrip s) = "PLACE") := by
      rcases h with h | h <;> rw [h] <;> decide
    unfold normalize_type
    rw [if_neg hs, if_neg h1, if_neg h2, if_pos h]
  · intro h
    have h1 : ¬(pyUpper (pyStrip s) = "PER" ∨ pyUpper (pyStrip s) = "PERSON") := by
      rintro (hh | hh) <;> exact h (by rw [hh] <;> decide)
    have h2 : ¬(pyUpper (pyStrip s) = "LOC" ∨ pyUpper (pyStrip s) = "LOCATION" ∨
        pyUpper (pyStrip s) = "PLACE") := by
      rintro (hh | hh | hh) <;> exact h (by rw [hh] <;> decide)
    have h3 : ¬(pyUpper (pyStrip s) = "WORK" ∨ pyUpper (pyStrip s) = "TITLE") := by
      rintro (hh | hh) <;> exact h (by rw [hh] <;> decide)
    unfold normalize_type
    rw [if_neg hs, if_neg h1, if_neg h2, if_neg h3]

/-- C8 witness: the amended theorem applied at the concrete input
`"  person "` (whitespace and mixed case). -/
theorem c8_witness : normalize_type "  person " = "PER" :=
  ((c8_normalize_type_total "  person ").2 (by decide)).1 (by decide)

/-! ## C9 — the Authority-Registry adapter -/

/-- C9: with no native-type mapping for the entity type, `_search_gnd`
returns `[]` without consulting the transport at all; with a mapping it
depends only on the transport's answer to the single query carrying the
text, the native type and the limit, equals the match-filtered candidate
list of that answer, and every candidate it ever returns stems from a
result item whose `match` flag is set. -/
theorem c9_registry_adapter (gnd gnd' : GndQuery → Option (List GndResultItem))
    (query_text entity_type : String) (limit : Nat) :
    (gnd_type_map (pyLower entity_type) = none →
      search_gnd gnd query_text entity_type limit = []) ∧
    (∀ g, gnd_type_map (pyLower entity_type) = some g →
      gnd ⟨query_text, g, limit⟩ = gnd' ⟨query_text, g, limit⟩ →
      search_gnd gnd query_text entity_type limit =
        search_gnd gnd' query_text entity_type limit) ∧
    (∀ g items, gnd_type_map (pyLower entity_type) = some g →
      gnd ⟨query_text, g, limit⟩ = some items →
      search_gnd gnd query_text entity_type limit =
        (items.filter (fun r => r.matched)).map gndCandidate) ∧
    (∀ c, c ∈ search_gnd gnd query_text entity_type limit →
      ∃ g items r, gnd_type_map (pyLower entity_type) = some g ∧
        gnd ⟨query_text, g, limit⟩ = some items ∧ r ∈ items ∧ r.matched = true ∧
        c = gndCandidate r) := by
  refine ⟨?_, ?_, ?_, ?_⟩
  · intro h
    unfold search_gnd
    rw [h]
  · intro g hg hagree
    unfold search_gnd
    rw [hg]
    dsimp only
    rw [hagree]
  · intro g items hg hit
    unfold search_gnd
    rw [hg]
    dsimp only
    rw [hit]
  · intro c hc
    unfold search_gnd at hc
    rcases hmap : gnd_type_map (pyLower entity_type) with _ | g
    · rw [hmap] at hc; cases hc
    · rw [hmap] at hc
      dsimp only at hc
      rcases hresp : gnd ⟨query_text, g, limit⟩ with _ | items
      · rw [hresp] at hc; cases hc
      · rw [hresp] at hc
        rcases List.mem_map.mp hc with ⟨r, hrmem, hr⟩
        rcases List.mem_filter.mp hrmem with ⟨hri, hrm⟩
        exact ⟨g, items, r, rfl, hresp, hri, hrm, hr.symm⟩

/-- C9 witness: the adapter applied to an unmapped type (`Building`) and
to a mapped one (`Person`, against a transport holding one matched and
one unmatched item). -/
theorem c9_witness :
    search_gnd gndRespHauff "x" "Building" 5 = [] ∧
    search_gnd gndRespHauff "Hauff" "Person" 3 =
      [{ label := "Wilhelm Hauff", id := "118540212", source := "GND", score := some 92 }] := by
  constructor
  · exact (c9_registry_adapter gndRespHauff gndRespHauff "x" "Building" 5).1 (by decide)
  · exact ((c9_registry_adapter gndRespHauff gndRespHauff "Hauff" "Person" 3).2.2.1
      "DifferentiatedPerson"
      [{ matched := true, name := "Wilhelm Hauff", id := "118540212", score := some 92 },
       { matched := false, name := "Other", id := "1" }]
      (by decide) (by decide)).trans (by decide)

/-! ## C5 — the fail-open Knowledge-Base class filter -/

/-- C5: with no allow-list for the normalized type the candidate list is
returned unchanged; with an allow-list and a non-empty candidate list the
filter returns exactly the candidates whose classes intersect the
allow-list (each annotated with its classes) when that subset is
non-empty, returns the original list unchanged when the subset is empty,
and in particular never returns an empty list. -/
theorem c5_wikidata_filter_fail_open (instMap : String → List String)
    (candidates : List WDCandidate) (ent_type : String) :
    (WIKIDATA_ALLOWED_INSTANCE_OF (normalize_type ent_type) = none →
      filter_wikidata_by_type instMap candidates ent_type = candidates) ∧
    (∀ allowed, WIKIDATA_ALLOWED_INSTANCE_OF (normalize_type ent_type) = some allowed →
      candidates ≠ [] →
      (candidates.filter
          (fun c => (wdInstances instMap c).any (fun i => allowed.contains i)) ≠ [] →
        filter_wikidata_by_type instMap candidates ent_type =
          (candidates.filter
              (fun c => (wdInstances instMap c).any (fun i => allowed.contains i))).map
            (fun c => { c with instance_of := some (wdInstances instMap c) })) ∧
      (candidates.filter
          (fun c => (wdInstances instMap c).any (fun i => allowed.contains i)) = [] →
        filter_wikidata_by_type instMap candidates ent_type = candidates) ∧
      filter_wikidata_by_type instMap candidates ent_type ≠ []) := by
  constructor
  · intro h
    unfold filter_wikidata_by_type
    rw [h]
  · intro allowed hAl hCand
    have hAllowedNe : allowed.isEmpty = false := by
      rcases hall : allowed with _ | ⟨a, as⟩
      · exact absurd hall (wikidata_allowlist_nonempty hAl)
      · rfl
    have hCandNe : candidates.isEmpty = false := by
      rcases hcs : candidates with _ | ⟨c, cs⟩
      · exact absurd hcs hCand
      · rfl
    have hFM : candidates.filterMap
        (fun c => if (wdInstances instMap c).any (fun i => allowed.contains i) then
          some { c with instance_of := some (wdInstances instMap c) } else none) =
        (candidates.filter
            (fun c => (wdInstances instMap c).any (fun i => allowed.contains i))).map
          (fun c => { c with instance_of := some (wdInstances instMap c) }) :=
      filterMap_ite _ _ _
    have hKey : filter_wikidata_by_type instMap candidates ent_type =
        (if ((candidates.filter
            (fun c => (wdInstances instMap c).any (fun i => allowed.contains i))).map
              (fun c => { c with instance_of := some (wdInstances instMap c) })).isEmpty then
          candidates
        else
          (candidates.filter
              (fun c => (wdInstances instMap c).any (fun i => allowed.contains i))).map
            (fun c => { c with instance_of := some (wdInstances instMap c) })) := by
      unfold filter_wikidata_by_type
      rw [hAl]
      dsimp only
      rw [hAllowedNe, hCandNe]
      rw [if_neg (by simp)]
      rw [hFM]
    refine ⟨?_, ?_, ?_⟩
    · intro hne
      rw [hKey, if_neg (by simp only [List.isEmpty_iff, List.map_eq_nil_iff]; exact hne)]
    · intro heq
      rw [hKey, if_pos (by simp only [List.isEmpty_iff, List.map_eq_nil_iff]; exact heq)]
    · rw [hKey]
      split
      · exact hCand
      · next hne => simpa [List.isEmpty_iff] using hne

/-- C5 witness: a two-candidate list for a PERSON query where the class
lookup marks only `Q1` as human: the filter keeps exactly `Q1`, annotated
with its classes. -/
theorem c5_witness :
    filter_wikidata_by_type instMapQ5 wdCandsAB "PERSON" =
      [{ id := "Q1", label := "A", instance_of := some ["Q5"] }] :=
  (((c5_wikidata_filter_fail_open instMapQ5 wdCandsAB "PERSON").2 ["Q5"]
    (by decide) (by decide)).1 (by decide)).trans (by decide)

/-! ## C6 — the Local-Catalogue search -/

/-- Propositional variant of `filterMap_ite`. -/
theorem filterMap_dite {α β : Type} (p : α → Prop) [DecidablePred p] (f : α → β) (l : List α) :
    l.filterMap (fun a => if p a then some (f a) else none)
      = (l.filter (fun a => decide (p a))).map f := by
  induction l with
  | nil => rfl
  | cons a l ih =>
    by_cases h : p a <;> simp [List.filterMap_cons, List.filter_cons, h, ih]

/-- The nested source/entry fold of the local search collects, in
iteration order, the image of the entries that satisfy the predicate. -/
theorem foldl_nested_append_ite {α β : Type} (p : α → Prop) [DecidablePred p] (f : α → β) :
    ∀ (cache : List (String × List α)) (acc : List β),
      cache.foldl (fun acc se =>
        se.2.foldl (fun acc e => if p e then acc ++ [f e] else acc) acc) acc
      = acc ++ ((cache.flatMap Prod.snd).filter (fun e => decide (p e))).map f := by
  intro cache
  induction cache with
  | nil => intro acc; simp
  | cons se rest ih =>
    intro acc
    rw [List.foldl_cons, foldl_append_ite, ih, List.flatMap_cons, List.filter_append,
      List.map_append, List.append_assoc]

/-- C6: the local catalogue search returns the 5-element prefix of a
stably descending-sorted permutation of exactly those catalogue entries
whose score — the whole-string similarity of the lowercased query against
the label, improved by the token-set similarity against a non-empty
alternate-titles field — reaches 75, each carried over as a candidate with
that score; the result never exceeds 5 candidates. -/
theorem c6_local_catalogue_search (ratio token_set_ratio : String → String → ℚ)
    (cache : List (String × List WorkEntry)) (query_text : String) :
    ∃ pre : List Candidate,
      search_local_work_cache ratio token_set_ratio cache query_text = pre.take 5 ∧
      pre.Perm ((cache.flatMap Prod.snd).filterMap (fun entry =>
        if 75 ≤ localScore ratio token_set_ratio query_text entry then
          some (mkLocalCandidate entry (localScore ratio token_set_ratio query_text entry))
        else none)) ∧
      pre.Sorted scoreGe ∧
      (search_local_work_cache ratio token_set_ratio cache query_text).length ≤ 5 := by
  refine ⟨(cache.foldl (fun acc se =>
      se.2.foldl (fun acc entry =>
        if 75 ≤ localScore ratio token_set_ratio query_text entry then
          acc ++ [mkLocalCandidate entry (localScore ratio token_set_ratio query_text entry)]
        else acc) acc) []).insertionSort scoreGe,
    ?_, ?_, List.sorted_insertionSort _ _, ?_⟩
  · rfl
  · have hbc : (cache.foldl (fun acc se =>
        se.2.foldl (fun acc entry =>
          if 75 ≤ localScore ratio token_set_ratio query_text entry then
            acc ++ [mkLocalCandidate entry (localScore ratio token_set_ratio query_text entry)]
          else acc) acc) []) =
        ((cache.flatMap Prod.snd).filter
            (fun e => decide (75 ≤ localScore ratio token_set_ratio query_text e))).map
          (fun e => mkLocalCandidate e (localScore ratio token_set_ratio query_text e)) := by
      simpa using foldl_nested_append_ite
        (fun e => 75 ≤ localScore ratio token_set_ratio query_text e)
        (fun e => mkLocalCandidate e (localScore ratio token_set_ratio query_text e)) cache []
    have hFM : (cache.flatMap Prod.snd).filterMap (fun entry =>
        if 75 ≤ localScore ratio token_set_ratio query_text entry then
          some (mkLocalCandidate entry (localScore ratio token_set_ratio query_text entry))
        else none) =
        ((cache.flatMap Prod.snd).filter
            (fun e => decide (75 ≤ localScore ratio token_set_ratio query_text e))).map
          (fun e => mkLocalCandidate e (localScore ratio token_set_ratio query_text e)) :=
      filterMap_dite _ _ _
    rw [hFM, hbc]
    exact List.perm_insertionSort _ _
  · exact List.length_take_le _ _

/-! ## C3 — adjudicator abstention -/

/-- Any pick string that is empty, case-insensitively `none`, or without
an exact candidate-id match makes `_ask_llm_external_pick` abstain,
whatever the confidence field holds. -/
theorem abstain_of_pick_bad (floatOfString : String → Option ℚ) (strOfFloat : ℚ → String)
    (candidates : List Candidate) (data : LlmReply)
    (h : llm_pick_string strOfFloat data = "" ∨
         pyLower (llm_pick_string strOfFloat data) = "none" ∨
         ∀ c ∈ candidates, c.id ≠ llm_pick_string strOfFloat data) :
    ask_llm_external_pick floatOfString strOfFloat (some data) candidates = none := by
  unfold ask_llm_external_pick
  dsimp only
  cases hconf : pyFloatOf floatOfString (data.confidence.getD (.vfloat 0)) with
  | none => rfl
  | some conf =>
    dsimp only
    rcases h with h | h | h
    · rw [if_neg (fun hh => hh.1 h)]
    · rw [if_neg (fun hh => hh.2 h)]
    · by_cases hcase : llm_pick_string strOfFloat data ≠ "" ∧
          pyLower (llm_pick_string strOfFloat data) ≠ "none"
      · rw [if_pos hcase]
        have hfind : candidates.find?
            (fun c => c.id == llm_pick_string strOfFloat data) = none := by
          rw [List.find?_eq_none]
          intro c hcmem
          simpa using h c hcmem
        rw [hfind]
      · rw [if_neg hcase]

/-- C3: the adjudicator returns `none` (abstain) when the reply's `pick`
is absent, empty after stripping, case-insensitively `none`, or not
exactly the id of a supplied candidate — and whenever it abstains on the
candidates gathered for a mention, the recorder leaves that mention
unchanged and creates no register entry. -/
theorem c3_adjudicator_abstains (floatOfString : String → Option ℚ) (strOfFloat : ℚ → String)
    (candidates : List Candidate) (data : LlmReply) :
    ((data.pick = none →
        ask_llm_external_pick floatOfString strOfFloat (some data) candidates = none) ∧
     (llm_pick_string strOfFloat data = "" →
        ask_llm_external_pick floatOfString strOfFloat (some data) candidates = none) ∧
     (pyLower (llm_pick_string strOfFloat data) = "none" →
        ask_llm_external_pick floatOfString strOfFloat (some data) candidates = none) ∧
     ((∀ c ∈ candidates, c.id ≠ llm_pick_string strOfFloat data) →
        ask_llm_external_pick floatOfString strOfFloat (some data) candidates = none)) ∧
    (∀ (O : Oracles) (k : Nat) (e : Entity) (cands : List Candidate),
      gather_candidates O (text_to_lookup_of e) (raw_label_of e) = .ok cands →
      ask_llm_external_pick O.floatOfString O.strOfFloat (O.llm e cands) cands = none →
      process_entity O k e = .ok (e, none)) := by
  refine ⟨⟨?_, ?_, ?_, ?_⟩, ?_⟩
  · intro hpick
    have habs : pyLower (llm_pick_string strOfFloat data) = "none" := by
      unfold llm_pick_string
      rw [hpick]
      show pyLower (pyStrip "none") = "none"
      decide
    exact abstain_of_pick_bad _ _ _ _ (Or.inr (Or.inl habs))
  · intro h
    exact abstain_of_pick_bad _ _ _ _ (Or.inl h)
  · intro h
    exact abstain_of_pick_bad _ _ _ _ (Or.inr (Or.inl h))
  · intro h
    exact abstain_of_pick_bad _ _ _ _ (Or.inr (Or.inr h))
  · intro O k e cands hg hask
    unfold process_entity
    dsimp only
    split
    · rfl
    · split
      · rfl
      · rw [hg]
        dsimp only
        split
        · rfl
        · rw [hask]

/-- C3 witness: a reasoning service answering with the out-of-list id
`Q9` for a mention whose only candidate is `Q1`: the adjudicator abstains
and the recorder leaves the mention untouched with no register entry. -/
theorem c3_witness :
    ask_llm_external_pick parseDecimalQ (fun _ => "")
      (some { pick := some (.vstr "Q9") }) candsHauffe = none ∧
    process_entity oraclesBadPick 0 entityHauffe = .ok (entityHauffe, none) := by
  constructor
  · exact (c3_adjudicator_abstains parseDecimalQ (fun _ => "") candsHauffe
      { pick := some (.vstr "Q9") }).1.2.2.2 (by decide)
  · exact (c3_adjudicator_abstains parseDecimalQ (fun _ => "") candsHauffe
      { pick := some (.vstr "Q9") }).2 oraclesBadPick 0 entityHauffe candsHauffe
      (by decide) (by decide)

/-! ## C4 — confidence coercion -/

/-- C4 (counterexample): a reply whose pick `Q1` exactly matches a
supplied candidate id but whose confidence field holds the non-numeric
string `abc` makes the adjudicator abstain — it does not produce a
decision with confidence 0.0, because `float("abc")` raises inside the
`try` block before the pick is examined. -/
theorem c4_invalid_confidence_counterexample :
    ask_llm_external_pick parseDecimalQ (fun _ => "")
      (some { pick := some (.vstr "Q1"), confidence := some (.vstr "abc") })
      candsHauffe = none ∧
    (∃ c ∈ candsHauffe, c.id = "Q1") ∧
    parseDecimalQ "abc" = none := by
  refine ⟨by decide, by decide, by decide⟩

/-- C4 (amended): for a valid in-list pick, a missing confidence field
defaults to 0.0 and a coercible confidence value is carried over as the
decision's confidence — but a confidence value that is present and not
coercible to float makes the whole reply an abstention instead of a
decision. -/
theorem c4_confidence_coercion (floatOfString : String → Option ℚ) (strOfFloat : ℚ → String)
    (candidates : List Candidate) (data : LlmReply) (c : Candidate)
    (hFind : candidates.find? (fun cand => cand.id == llm_pick_string strOfFloat data) = some c)
    (hNe : llm_pick_string strOfFloat data ≠ "")
    (hNone : pyLower (llm_pick_string strOfFloat data) ≠ "none") :
    (data.confidence = none →
      ask_llm_external_pick floatOfString strOfFloat (some data) candidates =
        some { external_id := llm_pick_string strOfFloat data, external_source := c.source,
               confidence := 0, gnd_id := c.gnd_id }) ∧
    (∀ q, pyFloatOf floatOfString (data.confidence.getD (.vfloat 0)) = some q →
      ask_llm_external_pick floatOfString strOfFloat (some data) candidates =
        some { external_id := llm_pick_string strOfFloat data, external_source := c.source,
               confidence := q, gnd_id := c.gnd_id }) ∧
    (pyFloatOf floatOfString (data.confidence.getD (.vfloat 0)) = none →
      ask_llm_external_pick floatOfString strOfFloat (some data) candidates = none) := by
  refine ⟨?_, ?_, ?_⟩
  · intro hmiss
    unfold ask_llm_external_pick
    dsimp only
    rw [hmiss]
    dsimp only [Option.getD_none, pyFloatOf]
    rw [if_pos ⟨hNe, hNone⟩, hFind]
  · intro q hq
    unfold ask_llm_external_pick
    dsimp only
    rw [hq]
    dsimp only
    rw [if_pos ⟨hNe, hNone⟩, hFind]
  · intro hbad
    unfold ask_llm_external_pick
    dsimp only
    rw [hbad]

/-- C4 witness: the amended theorem at concrete replies — a missing
confidence yields the pick with confidence 0, while the uncoercible
string `oops` yields an abstention. -/
theorem c4_witness :
    ask_llm_external_pick parseDecimalQ (fun _ => "")
      (some { pick := some (.vstr "Q1") }) candsHauffe =
      some { external_id := "Q1", external_source := "Wikidata", confidence := 0 } ∧
    ask_llm_external_pick parseDecimalQ (fun _ => "")
      (some { pick := some (.vstr "Q1"), confidence := some (.vstr "oops") })
      candsHauffe = none := by
  constructor
  · exact ((c4_confidence_coercion parseDecimalQ (fun _ => "") candsHauffe
      { pick := some (.vstr "Q1") }
      { label := "Hauffe", id := "Q1", source := "Wikidata" }
      (by decide) (by decide) (by decide)).1 rfl).trans (by decide)
  · exact (c4_confidence_coercion parseDecimalQ (fun _ => "") candsHauffe
      { pick := some (.vstr "Q1"), confidence := some (.vstr "oops") }
      { label := "Hauffe", id := "Q1", source := "Wikidata" }
      (by decide) (by decide) (by decide)).2.2 (by decide)

/-! ## C7 — idempotence on linked mentions -/

/-- A mention that already carries a register link is skipped untouched. -/
theorem process_entity_linked (O : Oracles) (k : Nat) (e : Entity)
    (h : (e.links.bind Links.register).isSome) :
    process_entity O k e = .ok (e, none) := by
  unfold process_entity
  rw [if_pos h]

/-- Over a list of already-linked mentions the loop returns the list
unchanged and no register entries, for any oracle bundle. -/
theorem processAll_linked (O : Oracles) :
    ∀ (k : Nat) (es : List Entity),
      (∀ e ∈ es, (e.links.bind Links.register).isSome) →
      processAll O k es = .ok (es, []) := by
  intro k es
  induction es generalizing k with
  | nil => intro _; rfl
  | cons e es ih =>
    intro h
    have h1 := h e (List.mem_cons_self e es)
    have h2 : ∀ x ∈ es, (x.links.bind Links.register).isSome :=
      fun x hx => h x (List.mem_cons_of_mem _ hx)
    unfold processAll
    rw [process_entity_linked O k e h1, ih (k + 1) h2]
    rfl

/-- C7: on a document in which every mention (primary or injected)
already carries a non-null register link, `lookup_unlinked_entities`
returns the document unchanged — no candidate lookup can influence the
result (the theorem holds for every oracle bundle), no register entry is
appended, and every existing link stays as it was. -/
theorem c7_resolve_all_idempotent (O : Oracles) (doc : Doc)
    (h : ∀ e ∈ doc.entities ++ doc.added_by_llm, (e.links.bind Links.register).isSome) :
    lookup_unlinked_entities O doc = .ok doc := by
  unfold lookup_unlinked_entities
  dsimp only
  rw [processAll_linked O 0 _ h]
  cases doc with
  | mk lid ents add reg => simp [List.take_left, List.drop_left]

/-- C7 witness: a letter whose only mention is linked, run against the
all-failing oracle bundle. -/
theorem c7_witness : lookup_unlinked_entities oraclesEmpty docLinked = .ok docLinked :=
  c7_resolve_all_idempotent oraclesEmpty docLinked (by decide)

/-! ## C10 — the recorder's write-back -/

/-- C10: when a mention is resolved (unlinked, in scope, with candidates,
and an accepted pick), the recorder replaces the mention's entire `links`
object by one holding exactly the `register` reference (kind
`external_new`, the fresh internal id, the chosen external id) and the
`decision` record (method, confidence score, external source); any other
pre-existing field of `links` is discarded (`extra := []`), every other
mention field is kept (the result is a `links`-only update of `e`), and
the matching register entry is emitted. -/
theorem c10_recorder_replaces_links (O : Oracles) (k : Nat) (e : Entity)
    (cands : List Candidate) (el : ExternalLink)
    (hUnlinked : e.links.bind Links.register = none)
    (hLabel : raw_label_of e ∉ skipLabels)
    (hGather : gather_candidates O (text_to_lookup_of e) (raw_label_of e) = .ok cands)
    (hNonempty : cands.isEmpty = false)
    (hPick : ask_llm_external_pick O.floatOfString O.strOfFloat (O.llm e cands) cands = some el) :
    process_entity O k e = .ok
      ({ e with links := some {
           register := some { kind := "external_new",
                              xml_id := "NEW_" ++ raw_label_of e ++ "_" ++ O.uuidSuffix k,
                              ref := el.external_id },
           decision := some { method := "llm_external_adjudication",
                              score := el.confidence,
                              external_source := el.external_source },
           extra := [] } },
       some { xml_id := "NEW_" ++ raw_label_of e ++ "_" ++ O.uuidSuffix k,
              text := e.text, normalized_text := text_to_lookup_of e,
              target_label := raw_label_of e, external_id := el.external_id,
              external_source := el.external_source, confidence := el.confidence,
              gnd_id := el.gnd_id }) := by
  unfold process_entity
  dsimp only
  rw [if_neg (by rw [hUnlinked]; simp), if_neg hLabel, hGather]
  dsimp only
  rw [if_neg (by rw [hNonempty]; simp), hPick]

/-- C10 witness: a resolved person mention whose pre-existing `links`
dict held a stale extra field: the write-back discards it and leaves all
other mention fields (including `extra`) unchanged. -/
theorem c10_witness :
    process_entity oraclesPick 0 entityHauffe = .ok
      ({ entityHauffe with links := some {
           register := some { kind := "external_new", xml_id := "NEW_PER_u0", ref := "Q1" },
           decision := some { method := "llm_external_adjudication", score := 1,
                              external_source := "Wikidata" },
           extra := [] } },
       some { xml_id := "NEW_PER_u0", text := "Hauffe", normalized_text := "Hauffe",
              target_label := "PER", external_id := "Q1", external_source := "Wikidata",
              confidence := 1, gnd_id := none }) :=
  (c10_recorder_replaces_links oraclesPick 0 entityHauffe candsHauffe
    { external_id := "Q1", external_source := "Wikidata", confidence := 1 }
    (by decide) (by decide) (by decide) (by decide) (by decide)).trans (by decide)

/-! ## C1 and C2 — the mis-called work lookup -/

/-- `_lookup_work_external` itself implements the claimed short-circuit:
a non-empty local-catalogue result is returned as-is (the registry is not
consulted), and only an empty local result falls back to GND as Work then
as CorporateBody, concatenated.  (Supporting lemma: the routing claim
fails only at the call site, see the next theorems.) -/
theorem lookup_work_external_short_circuits (ratio token_set_ratio : String → String → ℚ)
    (gnd : GndQuery → Option (List GndResultItem))
    (text : String) (cache : List (String × List WorkEntry)) :
    (search_local_work_cache ratio token_set_ratio cache text ≠ [] →
      lookup_work_external ratio token_set_ratio gnd text cache =
        search_local_work_cache ratio token_set_ratio cache text) ∧
    (search_local_work_cache ratio token_set_ratio cache text = [] →
      lookup_work_external ratio token_set_ratio gnd text cache =
        search_gnd gnd text "Work" 3 ++ search_gnd gnd text "CorporateBody" 2) := by
  constructor
  · intro h
    unfold lookup_work_external
    rw [if_neg (by simp [List.isEmpty_iff, h])]
  · intro h
    unfold lookup_work_external
    rw [if_pos (by simp [List.isEmpty_iff, h])]

/-- Any unlinked mention with a WORK-like label makes the per-mention
loop raise `TypeError`: line 331 calls `_lookup_work_external` without
its required `local_work_files` argument, so no source is ever queried
for such a mention. -/
theorem work_like_mention_raises (O : Oracles) (k : Nat) (e : Entity)
    (h1 : e.links.bind Links.register = none)
    (h2 : raw_label_of e ∈ workLikeLabels) :
    process_entity O k e = .error .typeError := by
  have hskip : raw_label_of e ∉ skipLabels := by
    simp only [workLikeLabels, List.mem_cons, List.not_mem_nil, or_false] at h2
    rcases h2 with h | h | h | h <;> rw [h] <;> decide
  have hgather : gather_candidates O (text_to_lookup_of e) (raw_label_of e) =
      .error .typeError := by
    simp only [workLikeLabels, List.mem_cons, List.not_mem_nil, or_false] at h2
    unfold gather_candidates
    rcases h2 with h | h | h | h <;> rw [h] <;> rfl
  unfold process_entity
  dsimp only
  rw [if_neg (by rw [h1]; simp), if_neg hskip, hgather]

/-- C1 (failing-input evidence): on a letter with one unlinked mention
labelled `LIT_WORK`, the whole resolution run raises `TypeError` — the
Local-Catalogue is never queried first (nor is any registry fallback),
contrary to the claimed routing. -/
theorem c1_work_routing_raises :
    lookup_unlinked_entities oraclesEmpty docWithWork = .error .typeError := by decide

/-- C2 (failing-input evidence): on a letter holding an unlinked `BIBL`
mention followed by a `PER` mention, the run aborts with `TypeError`
instead of completing over all mentions — the per-mention failure
escapes the Resolution Recorder's loop. -/
theorem c2_exception_escapes_loop :
    lookup_unlinked_entities oraclesEmpty docWithBibl = .error .typeError := by decide
